import Mathlib

/-
  Verification development for the hiralyze AI job-matching service.
  Shallow embedding of src/ai-service/services/job_matcher.py (class JobMatcher).

  Modelling conventions:
  * Python floats are modelled as exact rationals (ℚ); Python's `round`
    (round-half-to-even to an integer) is modelled by `pyRound`.
  * Python dicts returned by the matchers are modelled as structures; a key
    that is absent in some branch of the source becomes an `Option` field
    (`none` = key absent).
  * Python strings are Lean `String`s; `str.lower` / `str.strip` / substring
    membership (`in`) are modelled for the ASCII texts the service handles.
  * The TF-IDF cosine similarity (sklearn `TfidfVectorizer(stop_words='english',
    max_features=1000, ngram_range=(1,2)).fit_transform` on exactly the two
    documents, followed by `cosine_similarity`) is a pure function of the two
    document strings; it is passed in as a parameter `tfidf : String → String → ℚ`.
    Its output is a cosine of two non-negative vectors, hence lies in [0, 1];
    when the two documents share no token at all, the two vectors have disjoint
    support and the cosine is exactly 0.
  * Exceptions raised inside a matcher are modelled with `Except Unit`:
    `calculate_match_outcomes` reproduces the control flow of
    `calculate_match`'s single try/except plus the internal try/except of
    `_calculate_semantic_match`.
-/

namespace Hiralyze

/-! ### Basic Python string operations -/

/-- Python `\s` / `str.strip` whitespace: space, tab, newline, CR, FF, VT. -/
def pyIsSpace (c : Char) : Bool :=
  c == ' ' || c == '\t' || c == '\n' || c == '\r' || c == '\x0b' || c == '\x0c'

/-- ASCII lowering of one character (Python `str.lower` on the ASCII texts used here). -/
def pyCharLower (c : Char) : Char :=
  if 'A' ≤ c && c ≤ 'Z' then Char.ofNat (c.toNat + 32) else c

/-- Python `str.lower` (ASCII). -/
def pyLower (s : String) : String := ⟨s.data.map pyCharLower⟩

def dropLeadingWs : List Char → List Char
  | [] => []
  | c :: t => if pyIsSpace c then dropLeadingWs t else c :: t

/-- Python `str.strip`. -/
def pyStrip (s : String) : String :=
  ⟨((dropLeadingWs s.data.reverse).reverse |> dropLeadingWs)⟩

/-- Try to consume the literal `lit` at the head of `s`; return the rest on success. -/
def eatLit : List Char → List Char → Option (List Char)
  | [], s => some s
  | _ :: _, [] => none
  | a :: as, b :: bs => if a == b then eatLit as bs else none

/-- Does `needle` occur contiguously inside the character list? -/
def subSearch (needle : List Char) : List Char → Bool
  | [] => (eatLit needle []).isSome
  | c :: t => (eatLit needle (c :: t)).isSome || subSearch needle t

/-- Python `needle in hay` on strings (substring test). -/
def containsSub (hay needle : String) : Bool := subSearch needle.data hay.data

/-! ### Python `round` (round half to even) on exact rationals -/

/-- Python's built-in `round(x)` to an integer: nearest integer, ties to even. -/
def pyRound (q : ℚ) : ℤ :=
  let f : ℤ := Int.floor q
  let r : ℚ := q - (f : ℚ)
  if r < 1/2 then f
  else if 1/2 < r then f + 1
  else if f % 2 = 0 then f else f + 1

/-! ### Data model (§3 of the spec; inputs of `calculate_match`) -/

/-- One entry of `resume_data['experience']` (keys read by the matcher). -/
structure ExperienceEntry where
  company : String
  position : String
  description : String
  duration : ℚ
deriving DecidableEq

/-- One entry of `resume_data['education']` (keys read by the matcher). -/
structure EducationEntry where
  degree : String
  field : String
  institution : String
deriving DecidableEq

/-- The `resume_data` record as read by `JobMatcher.calculate_match`. -/
structure Resume where
  skills : List String
  experience : List ExperienceEntry
  education : List EducationEntry
  summary : String
deriving DecidableEq

/-- The `job_data` record as read by `JobMatcher.calculate_match`. -/
structure Job where
  title : String
  company : String
  description : String
  requirements : List String
  skills : List String
deriving DecidableEq

/-- Result dict of `_calculate_skills_match`.  The empty-input early return
(line 97) carries no `match_ratio` key, hence the `Option` field. -/
structure SkillsComp where
  score : ℚ
  matching_skills : List String
  missing_skills : List String
  match_ratio_val : Option ℚ
deriving DecidableEq

/-- Result dict of `_calculate_experience_match`.  The empty-input early return
(line 145) has only `score` and `gap_analysis`. -/
structure ExpComp where
  score : ℤ
  total_years : Option ℚ
  required_years : Option ℕ
  level_match : Option Bool
  gap_analysis : String
deriving DecidableEq

/-- Result dict of `_calculate_education_match`; the first two returns carry
no degree keys. -/
structure EduComp where
  score : ℤ
  highest_degree : Option String
  required_degree : Option String
  analysis : String
deriving DecidableEq

/-- Result dict of `_calculate_semantic_match`; the empty-text return has no
`analysis` key. -/
structure SemComp where
  score : ℤ
  similarity : ℚ
  analysis : Option String
deriving DecidableEq

/-- The `breakdown` dict of a successful `calculate_match`. -/
structure Breakdown where
  skills_match : SkillsComp
  experience_match : ExpComp
  education_match : EduComp
  semantic_match : SemComp
deriving DecidableEq

/-- The dict returned by `calculate_match`; `breakdown = none` models the empty
dict `{}` of the top-level fallback. -/
structure MatchResult where
  score : ℤ
  recommendation : String
  breakdown : Option Breakdown
  matching_skills : List String
  missing_skills : List String
  experience_gap : String
  recommendations : List String
deriving DecidableEq

/-! ### Skills matcher (`_calculate_skills_match`, `_are_similar_skills`,
`_apply_skill_weights`) -/

/-- The synonym table of `_are_similar_skills` (lines 266-279). -/
def synonyms_table : List (String × List String) :=
  [("javascript", ["js", "node.js", "nodejs"]),
   ("python", ["py"]),
   ("react", ["reactjs", "react.js"]),
   ("angular", ["angularjs"]),
   ("vue", ["vuejs", "vue.js"]),
   ("aws", ["amazon web services"]),
   ("gcp", ["google cloud platform"]),
   ("azure", ["microsoft azure"]),
   ("docker", ["containerization"]),
   ("kubernetes", ["k8s"]),
   ("postgresql", ["postgres"]),
   ("mongodb", ["mongo"])]

/-- Model of `_are_similar_skills` (lines 263-287). -/
def are_similar_skills (skill1 skill2 : String) : Bool :=
  synonyms_table.any fun p =>
    (skill1 == p.1 && p.2.contains skill2) ||
    (skill2 == p.1 && p.2.contains skill1) ||
    (p.2.contains skill1 && p.2.contains skill2)

/-- The per-requirement classification of the loop at lines 106-124: a
requirement (already lowered and stripped) is matching iff it is an exact,
substring-either-direction, or synonym match against some resume skill. -/
def skillMatchesReq (resume_skills_lower : List String) (requirement_lower : String) : Bool :=
  resume_skills_lower.contains requirement_lower ||
  resume_skills_lower.any fun resume_skill =>
    containsSub resume_skill requirement_lower ||
    containsSub requirement_lower resume_skill ||
    are_similar_skills requirement_lower resume_skill

/-- The bonus one matched skill contributes in `_apply_skill_weights`
(lines 297-310): at most one of +5 (programming language), +3 (framework),
+4 (cloud), checked in that order by substring on the lowered skill. -/
def skill_bonus (skill : String) : ℚ :=
  let skill_lower := pyLower skill
  if ["python", "java", "javascript", "c++", "c#"].any
      (fun lang => containsSub skill_lower lang) then 5
  else if ["react", "angular", "vue", "django", "spring"].any
      (fun framework => containsSub skill_lower framework) then 3
  else if ["aws", "azure", "gcp", "docker", "kubernetes"].any
      (fun cloud => containsSub skill_lower cloud) then 4
  else 0

/-- Model of `_apply_skill_weights` (lines 289-312): add each matched skill's bonus to
the base score (once per list element), then cap at 100; an empty matching
list returns the base score unchanged. -/
def apply_skill_weights (matching_skills : List String) (base_score : ℚ) : ℚ :=
  if matching_skills.isEmpty then base_score
  else min 100 (base_score + (matching_skills.map skill_bonus).sum)

/-- Model of `_calculate_skills_match` (lines 94-140).  The dead `else base_score = 50`
and the dead ternary default of `match_ratio` (the empty-requirements case is
already handled by the early return) are omitted. -/
def calculate_skills_match (resume_skills job_requirements : List String) : SkillsComp :=
  if resume_skills.isEmpty || job_requirements.isEmpty then
    { score := 0, matching_skills := [], missing_skills := job_requirements,
      match_ratio_val := none }
  else
    let resume_skills_lower := resume_skills.map fun skill => pyStrip (pyLower skill)
    let matching_skills := job_requirements.filter fun requirement =>
      skillMatchesReq resume_skills_lower (pyStrip (pyLower requirement))
    let missing_skills := job_requirements.filter fun requirement =>
      !(skillMatchesReq resume_skills_lower (pyStrip (pyLower requirement)))
    let base_score : ℚ :=
      ((matching_skills.length : ℚ) / (job_requirements.length : ℚ)) * 100
    let weighted_score := apply_skill_weights matching_skills base_score
    { score := min 100 weighted_score,
      matching_skills := matching_skills,
      missing_skills := missing_skills,
      match_ratio_val :=
        some ((matching_skills.length : ℚ) / (job_requirements.length : ℚ)) }

/-! ### Experience matcher: required-years extraction (`_extract_required_experience`)

The four regex patterns of lines 319-324 are implemented as deterministic
scanners.  In each pattern the optional pieces (`\+?`, `s?`, `(?:of\s*)?`,
`(?:relevant\s*)?`) and the greedy `\d+` / `\s*` cannot rescue a failed match
by backtracking (the skipped character can never match the continuation), so
maximal munch plus an explicit two-way alternative for the optional literals
is extensionally the Python regex.  `re.search` returns the leftmost match;
`searchPat` scans positions left to right. -/

/-- Greedy `\d+` continuation: accumulate further digits. -/
def digitsLoop : Nat → List Char → Nat × List Char
  | acc, [] => (acc, [])
  | acc, c :: t =>
    if c.isDigit then digitsLoop (10 * acc + (c.toNat - 48)) t else (acc, c :: t)

/-- Greedy `\d+` with maximal munch: value of the digit run and the rest. -/
def grabDigits : List Char → Option (Nat × List Char)
  | [] => none
  | c :: t => if c.isDigit then some (digitsLoop (c.toNat - 48) t) else none

/-- Greedy `\s*`. -/
def skipWs : List Char → List Char
  | [] => []
  | c :: t => if pyIsSpace c then skipWs t else c :: t

/-- The literal `experience`. -/
def eatExperienceKw (s : List Char) : Bool := (eatLit "experience".data s).isSome

/-- The tail `(?:relevant\s*)?experience` (the `relevant` branch only for pattern 2). -/
def relOpt (allowRelevant : Bool) (s : List Char) : Bool :=
  (allowRelevant &&
    (match eatLit "relevant".data s with
     | some t => eatExperienceKw (skipWs t)
     | none => false)) ||
  eatExperienceKw s

/-- The optional `(?:of\s*)?` followed by `relOpt`. -/
def ofOpt (allowRelevant : Bool) (s : List Char) : Bool :=
  (match eatLit "of".data s with
   | some t => relOpt allowRelevant (skipWs t)
   | none => false) ||
  relOpt allowRelevant s

/-- The tail `\+?\s*years?\s*(?:of\s*)?(?:relevant\s*)?experience`, the part of
patterns 1/2 after the captured digits. -/
def yearsExpTail (allowRelevant : Bool) (s0 : List Char) : Bool :=
  let s1 := match s0 with
    | '+' :: t => t
    | _ => s0
  let s2 := skipWs s1
  match eatLit "year".data s2 with
  | none => false
  | some s3 =>
    (match s3 with
     | 's' :: t => ofOpt allowRelevant (skipWs t)
     | _ => false) ||
    ofOpt allowRelevant (skipWs s3)

/-- Pattern 1, `(\d+)\+?\s*years?\s*(?:of\s*)?experience`, anchored at a position. -/
def pat1At (s : List Char) : Option Nat :=
  match grabDigits s with
  | some (n, rest) => if yearsExpTail false rest then some n else none
  | none => none

/-- Pattern 2, `(\d+)\+?\s*years?\s*(?:of\s*)?(?:relevant\s*)?experience`. -/
def pat2At (s : List Char) : Option Nat :=
  match grabDigits s with
  | some (n, rest) => if yearsExpTail true rest then some n else none
  | none => none

/-- The captured tail `(\d+)\s*years?` shared by patterns 3 and 4. -/
def digitsYearsAt (s : List Char) : Option Nat :=
  match grabDigits s with
  | some (n, rest) => if (eatLit "year".data (skipWs rest)).isSome then some n else none
  | none => none

/-- Pattern 3, `minimum\s*(?:of\s*)?(\d+)\s*years?`, anchored at a position. -/
def pat3At (s : List Char) : Option Nat :=
  match eatLit "minimum".data s with
  | none => none
  | some t =>
    let t1 := skipWs t
    match eatLit "of".data t1 with
    | some t2 =>
      match digitsYearsAt (skipWs t2) with
      | some n => some n
      | none => digitsYearsAt t1
    | none => digitsYearsAt t1

/-- Pattern 4, `at\s*least\s*(\d+)\s*years?`, anchored at a position. -/
def pat4At (s : List Char) : Option Nat :=
  match eatLit "at".data s with
  | none => none
  | some t =>
    match eatLit "least".data (skipWs t) with
    | none => none
    | some u => digitsYearsAt (skipWs u)

/-- Model of `re.search`: the leftmost position at which the anchored pattern matches. -/
def searchPat (patAt : List Char → Option Nat) : List Char → Option Nat
  | [] => patAt []
  | c :: t =>
    match patAt (c :: t) with
    | some n => some n
    | none => searchPat patAt t

/-- Model of `_extract_required_experience` (lines 314-339).  The callers pass the
already-lowered title/description; the function lowers the concatenation again
(idempotent), and falls back to seniority keywords in the title. -/
def extract_required_experience (job_title job_description : String) : ℕ :=
  let text := (pyLower (job_title ++ " " ++ job_description)).data
  match searchPat pat1At text with
  | some n => n
  | none =>
    match searchPat pat2At text with
    | some n => n
    | none =>
      match searchPat pat3At text with
      | some n => n
      | none =>
        match searchPat pat4At text with
        | some n => n
        | none =>
          if ["senior", "lead", "principal"].any
              (fun level => containsSub job_title level) then 5
          else if ["mid", "intermediate"].any
              (fun level => containsSub job_title level) then 3
          else if ["junior", "entry"].any
              (fun level => containsSub job_title level) then 1
          else 2

/-- Model of `_determine_experience_level` (lines 341-352). -/
def determine_experience_level (years : ℚ) : String :=
  if years < 1 then "entry"
  else if years < 3 then "junior"
  else if years < 6 then "mid"
  else if years < 10 then "senior"
  else "executive"

/-- Model of `_extract_required_level` (lines 354-365). -/
def extract_required_level (job_title job_description : String) : String :=
  let text := pyLower (job_title ++ " " ++ job_description)
  if ["senior", "sr.", "lead", "principal"].any (fun level => containsSub text level) then
    "senior"
  else if ["junior", "jr.", "entry", "graduate"].any (fun level => containsSub text level) then
    "junior"
  else if ["mid", "intermediate"].any (fun level => containsSub text level) then
    "mid"
  else "mid"

/-- Model of `self.experience_levels.get(level, 2)` (lines 27-35, used at 369-370). -/
def level_num (level : String) : ℤ :=
  if level = "entry" then 0
  else if level = "junior" then 1
  else if level = "mid" then 2
  else if level = "senior" then 3
  else if level = "lead" then 4
  else if level = "principal" then 5
  else if level = "executive" then 6
  else 2

/-- Model of `_calculate_level_alignment` (lines 367-379). -/
def calculate_level_alignment (resume_level required_level : String) : ℚ :=
  let resume_num := level_num resume_level
  let required_num := level_num required_level
  if resume_num = required_num then 100
  else if (resume_num - required_num).natAbs = 1 then 80
  else if (resume_num - required_num).natAbs = 2 then 60
  else 40

/-- The industry taxonomy of `_extract_industry_keywords` (lines 411-418). -/
def industries_table : List (String × List String) :=
  [("fintech", ["finance", "banking", "fintech", "payment", "trading"]),
   ("healthcare", ["healthcare", "medical", "hospital", "pharma"]),
   ("ecommerce", ["ecommerce", "retail", "shopping", "marketplace"]),
   ("saas", ["saas", "software", "platform", "cloud"]),
   ("gaming", ["gaming", "game", "entertainment"]),
   ("education", ["education", "learning", "university", "school"])]

/-- Model of `_extract_industry_keywords` (lines 409-425). -/
def extract_industry_keywords (text : String) : List String :=
  (industries_table.filter fun p => p.2.any fun keyword => containsSub text keyword).map
    (fun p => p.1)

/-- Model of `_calculate_domain_match` (lines 381-407). -/
def calculate_domain_match (resume_experience : List ExperienceEntry) (job : Job) : ℚ :=
  let job_text := pyLower job.company ++ " " ++ pyLower job.description
  let job_industries := extract_industry_keywords job_text
  let resume_industries :=
    (resume_experience.map fun exp =>
      extract_industry_keywords (pyLower exp.company ++ " " ++ pyLower exp.description)).flatten
  if job_industries.isEmpty then 70
  else if job_industries.any (fun industry => resume_industries.contains industry) then 100
  else 50

/-- Python `f"{x:.1f}"` on the exact rational value (round half to even). -/
def formatFixed1 (q : ℚ) : String :=
  let t := pyRound (q * 10)
  let sign := if t < 0 then "-" else ""
  let a := t.natAbs
  sign ++ toString (a / 10) ++ "." ++ toString (a % 10)

/-- Python `f"{x:.2f}"` on the exact rational value (round half to even). -/
def formatFixed2 (q : ℚ) : String :=
  let t := pyRound (q * 100)
  let sign := if t < 0 then "-" else ""
  let a := t.natAbs
  sign ++ toString (a / 100) ++ "." ++
    (if a % 100 < 10 then "0" else "") ++ toString (a % 100)

/-- Model of `_generate_experience_gap_analysis` (lines 510-525). -/
def generate_experience_gap_analysis (total_years : ℚ) (required_years : ℕ)
    (resume_level required_level : String) : String :=
  if total_years ≥ (required_years : ℚ) ∧ resume_level = required_level then
    "Experience requirements fully met"
  else
    let gaps :=
      (if total_years < (required_years : ℚ) then
        ["Need " ++ formatFixed1 ((required_years : ℚ) - total_years) ++
         " more years of experience"]
      else []) ++
      (if resume_level ≠ required_level then
        ["Experience level: " ++ resume_level ++ ", required: " ++ required_level]
      else [])
    if gaps.isEmpty then "Experience requirements met"
    else String.intercalate "; " gaps

/-- Model of `_calculate_experience_match` (lines 142-188). -/
def calculate_experience_match (resume_experience : List ExperienceEntry) (job : Job) :
    ExpComp :=
  if resume_experience.isEmpty then
    { score := 0, total_years := none, required_years := none, level_match := none,
      gap_analysis := "No experience data available" }
  else
    let total_years := (resume_experience.map fun exp => exp.duration).sum
    let job_title := pyLower job.title
    let job_description := pyLower job.description
    let required_years := extract_required_experience job_title job_description
    let resume_level := determine_experience_level total_years
    let required_level := extract_required_level job_title job_description
    let years_score : ℚ :=
      if total_years ≥ (required_years : ℚ) then 100
      else if total_years ≥ (required_years : ℚ) * 0.8 then 80
      else if total_years ≥ (required_years : ℚ) * 0.6 then 60
      else max 20 ((total_years / (required_years : ℚ)) * 60)
    let level_score := calculate_level_alignment resume_level required_level
    let domain_score := calculate_domain_match resume_experience job
    let final_score := years_score * 0.5 + level_score * 0.3 + domain_score * 0.2
    { score := pyRound final_score,
      total_years := some total_years,
      required_years := some required_years,
      level_match := some (resume_level == required_level),
      gap_analysis :=
        generate_experience_gap_analysis total_years required_years resume_level
          required_level }

/-! ### Education matcher (`_calculate_education_match` and helpers) -/

/-- The degree-requirement keywords of lines 199-202. -/
def education_keywords : List String := ["degree", "bachelor", "master", "phd", "education"]

/-- The `requires_degree` test (lines 199-202): some keyword occurs in the
(lowered) description or in some (lowered) requirement. -/
def requires_degree (job_description : String) (job_requirements : List String) : Bool :=
  education_keywords.any fun keyword =>
    containsSub job_description keyword ||
    job_requirements.any fun req => containsSub (pyLower req) keyword

/-- Model of `_get_highest_degree` (lines 427-437): first hierarchy level that occurs
as a substring of some entry's lowered degree ("doctorate" also counts as
phd); default "bachelor". -/
def get_highest_degree (education : List EducationEntry) : String :=
  let degree_hierarchy := ["phd", "master", "bachelor", "associate", "high_school"]
  match degree_hierarchy.find? (fun degree_level =>
    education.any fun edu =>
      let degree := pyLower edu.degree
      containsSub degree degree_level ||
      (degree_level == "phd" && containsSub degree "doctorate")) with
  | some degree_level => degree_level
  | none => "bachelor"

/-- Model of `_extract_required_degree` (lines 439-450). -/
def extract_required_degree (job_description : String) (job_requirements : List String) :
    String :=
  let text := pyLower (job_description ++ " " ++ String.intercalate " " job_requirements)
  if containsSub text "phd" || containsSub text "doctorate" then "phd"
  else if containsSub text "master" || containsSub text "mba" then "master"
  else if containsSub text "bachelor" || containsSub text "degree" then "bachelor"
  else "bachelor"

/-- Model of `degree_scores.get(d, default)` (lines 212-218). -/
def degree_score_of (degree : String) (default : ℚ) : ℚ :=
  if degree = "high_school" then 20
  else if degree = "associate" then 40
  else if degree = "bachelor" then 70
  else if degree = "master" then 90
  else if degree = "phd" then 100
  else default

/-- Model of `_calculate_education_match` (lines 190-233). -/
def calculate_education_match (resume_education : List EducationEntry) (job : Job) :
    EduComp :=
  if resume_education.isEmpty then
    { score := 50, highest_degree := none, required_degree := none,
      analysis := "No education data available" }
  else
    let job_description := pyLower job.description
    let job_requirements := job.requirements
    if !(requires_degree job_description job_requirements) then
      { score := 100, highest_degree := none, required_degree := none,
        analysis := "No specific education requirements" }
    else
      let highest_degree := get_highest_degree resume_education
      let required_degree := extract_required_degree job_description job_requirements
      let resume_score := degree_score_of highest_degree 50
      let required_score := degree_score_of required_degree 70
      let final_score : ℚ :=
        if resume_score ≥ required_score then 100
        else max 50 ((resume_score / required_score) * 100)
      { score := pyRound final_score,
        highest_degree := some highest_degree,
        required_degree := some required_degree,
        analysis := "Has " ++ highest_degree ++ ", requires " ++ required_degree }

/-! ### Semantic matcher (`_calculate_semantic_match` and text preparation) -/

/-- Model of `_prepare_resume_text` (lines 452-482). -/
def prepare_resume_text (resume : Resume) : String :=
  let text_parts :=
    (if resume.skills.isEmpty then [] else [String.intercalate " " resume.skills]) ++
    (resume.experience.map fun exp =>
      (if exp.description ≠ "" then [exp.description] else []) ++
      (if exp.position ≠ "" then [exp.position] else [])).flatten ++
    (resume.education.map fun edu =>
      (if edu.field ≠ "" then [edu.field] else []) ++
      (if edu.degree ≠ "" then [edu.degree] else [])).flatten ++
    (if resume.summary ≠ "" then [resume.summary] else [])
  String.intercalate " " text_parts

/-- Model of `_prepare_job_text` (lines 484-508). -/
def prepare_job_text (job : Job) : String :=
  let text_parts :=
    (if job.title ≠ "" then [job.title] else []) ++
    (if job.description ≠ "" then [job.description] else []) ++
    job.requirements ++
    job.skills
  String.intercalate " " text_parts

/-- The success path of `_calculate_semantic_match` (lines 235-257).
`tfidf` is the per-call TF-IDF cosine similarity of the two document texts
(see the header comment); the except-branch of the source is modelled in
`calculate_match_outcomes` below. -/
def calculate_semantic_match (tfidf : String → String → ℚ) (resume : Resume) (job : Job) :
    SemComp :=
  let resume_text := prepare_resume_text resume
  let job_text := prepare_job_text job
  if resume_text == "" || job_text == "" then
    { score := 50, similarity := 1/2, analysis := none }
  else
    let similarity := tfidf resume_text job_text
    { score := pyRound (similarity * 100),
      similarity := similarity,
      analysis := some ("Semantic similarity: " ++ formatFixed2 similarity) }

/-- The fallback `ScoreComponent` of the except-branch of
`_calculate_semantic_match` (line 261). -/
def semantic_fallback : SemComp :=
  { score := 50, similarity := 1/2,
    analysis := some "Unable to calculate semantic similarity" }

/-! ### Aggregation (`calculate_match` and helpers) -/

/-- Model of `_get_recommendation` (lines 527-536); applied to the un-rounded composite. -/
def get_recommendation (final_score : ℚ) : String :=
  if final_score ≥ 85 then "highly_recommended"
  else if final_score ≥ 70 then "recommended"
  else if final_score ≥ 50 then "maybe"
  else "not_recommended"

/-- Model of `_generate_recommendations` (lines 538-555). -/
def generate_recommendations (skills_match : SkillsComp) (experience_match : ExpComp) :
    List String :=
  (if skills_match.missing_skills.isEmpty then []
   else ["Consider developing skills in: " ++
         String.intercalate ", " (skills_match.missing_skills.take 3)]) ++
  (if experience_match.score < 70 then
    ["Gain more relevant work experience in the field"]
  else []) ++
  (if skills_match.score < 60 then
    ["Expand technical skill set to better match job requirements"]
  else [])

/-- The weighted composite of lines 57-62:
`skills*0.4 + experience*0.3 + semantic*0.2 + education*0.1`. -/
def final_score_of (skills_match : SkillsComp) (experience_match : ExpComp)
    (education_match : EduComp) (semantic_match : SemComp) : ℚ :=
  skills_match.score * 0.4 + (experience_match.score : ℚ) * 0.3 +
    (semantic_match.score : ℚ) * 0.2 + (education_match.score : ℚ) * 0.1

/-- The result dict built at lines 67-80 from the four component results. -/
def assemble_match_result (skills_match : SkillsComp) (experience_match : ExpComp)
    (education_match : EduComp) (semantic_match : SemComp) : MatchResult :=
  let final_score :=
    final_score_of skills_match experience_match education_match semantic_match
  { score := pyRound final_score,
    recommendation := get_recommendation final_score,
    breakdown := some
      { skills_match := skills_match, experience_match := experience_match,
        education_match := education_match, semantic_match := semantic_match },
    matching_skills := skills_match.matching_skills,
    missing_skills := skills_match.missing_skills,
    experience_gap := experience_match.gap_analysis,
    recommendations := generate_recommendations skills_match experience_match }

/-- The whole-result fallback of the top-level except (lines 84-92). -/
def fallback_match_result : MatchResult :=
  { score := 50, recommendation := "maybe", breakdown := none,
    matching_skills := [], missing_skills := [], experience_gap := "",
    recommendations := [] }

/-- Model of `calculate_match` (lines 37-80), success path: the four matchers run on the
extracted resume/job fields (`job_requirements + job_skills` for skills) and
their results are aggregated. -/
def calculate_match (tfidf : String → String → ℚ) (resume : Resume) (job : Job) :
    MatchResult :=
  assemble_match_result
    (calculate_skills_match resume.skills (job.requirements ++ job.skills))
    (calculate_experience_match resume.experience job)
    (calculate_education_match resume.education job)
    (calculate_semantic_match tfidf resume job)

/-- Model of `calculate_match` at the level of matcher outcomes, modelling its exception
control flow: the matchers run in source order (skills, experience, education,
semantic); `_calculate_semantic_match` catches its own internal exception and
substitutes `semantic_fallback` (lines 259-261), while an exception escaping
any of the other three matchers reaches the single top-level except
(lines 82-92), which discards everything and returns `fallback_match_result`. -/
def calculate_match_outcomes (skills_outcome : Except Unit SkillsComp)
    (experience_outcome : Except Unit ExpComp) (education_outcome : Except Unit EduComp)
    (semantic_outcome : Except Unit SemComp) : MatchResult :=
  match skills_outcome with
  | .error _ => fallback_match_result
  | .ok skills_match =>
    match experience_outcome with
    | .error _ => fallback_match_result
    | .ok experience_match =>
      match education_outcome with
      | .error _ => fallback_match_result
      | .ok education_match =>
        match semantic_outcome with
        | .error _ =>
          assemble_match_result skills_match experience_match education_match
            semantic_fallback
        | .ok semantic_match =>
          assemble_match_result skills_match experience_match education_match
            semantic_match

/-- The fitted state of the shared `self.vectorizer` instance (lines 9-14):
`none` before the first fit, `some v` after `fit_transform` has stored the
vocabulary fitted on the last pair of documents. -/
structure VectorizerState where
  fitted_vocab : Option (List String)
deriving DecidableEq

/-- Model of `calculate_match` with the shared vectorizer state made explicit.
`fit_vocab` is sklearn's vocabulary fitting, a function of the two documents
only; `fit_transform` refits from scratch on exactly the current two documents
(line 247), so the returned matrix — and hence the whole result — does not
depend on the incoming state, while the instance retains the freshly fitted
vocabulary afterwards.  When either document text is empty the vectorizer is
never invoked (line 242-243) and the state is unchanged. -/
def calculate_match_stateful (tfidf : String → String → ℚ)
    (fit_vocab : String → String → List String) (st : VectorizerState)
    (resume : Resume) (job : Job) : VectorizerState × MatchResult :=
  let resume_text := prepare_resume_text resume
  let job_text := prepare_job_text job
  let st' :=
    if resume_text == "" || job_text == "" then st
    else { fitted_vocab := some (fit_vocab resume_text job_text) }
  (st', calculate_match tfidf resume job)

/-- The exact (un-rounded) composite of lines 57-62 for given inputs; the
returned `score` is `pyRound` of this value while the recommendation is
computed from this value directly (line 65). -/
def composite_score (tfidf : String → String → ℚ) (resume : Resume) (job : Job) : ℚ :=
  final_score_of
    (calculate_skills_match resume.skills (job.requirements ++ job.skills))
    (calculate_experience_match resume.experience job)
    (calculate_education_match resume.education job)
    (calculate_semantic_match tfidf resume job)

/-- Modelled from the spec claim's words (not from the source): the skills
score formula with "for each **distinct** matched skill, exactly one bonus" —
the matched list is deduplicated before the bonuses are summed.  Compared
against `calculate_skills_match`, which adds a bonus per list occurrence. -/
def claimed_skills_score (matching_skills : List String) (base_score : ℚ) : ℚ :=
  min 100 (base_score + (matching_skills.dedup.map skill_bonus).sum)

/-- The degree substrings recognized by `_get_highest_degree` (lines 429-434):
the five hierarchy levels plus "doctorate", which also counts as phd. -/
def degree_markers : List String :=
  ["phd", "doctorate", "master", "bachelor", "associate", "high_school"]

/-- A resume whose skills match job requirements only through synonyms and
substrings, so that the resume text and job text share no token and the
TF-IDF cosine of the two texts is exactly 0. -/
def resumeA : Resume :=
  { skills := ["amazon web services", "postgres", "mongo"],
    experience :=
      [{ company := "initech", position := "engineer", description := "",
         duration := 4 }],
    education := [{ degree := "bsc", field := "cs", institution := "x" }],
    summary := "" }

/-- A job posting with four requirements (three matched by `resumeA` via
synonym/substring, one missing), no year/seniority/education/industry
keywords, and no token shared with `resumeA`'s text. -/
def jobA : Job :=
  { title := "backend developer", company := "", description := "",
    requirements := ["aws", "postgresql", "mongodb", "rust"], skills := [] }

/-- Ten job requirements of which exactly the two duplicate "python" entries
match the resume skill list `["python"]`. -/
def reqsB : List String :=
  ["python", "python", "aaa1", "aaa2", "aaa3", "aaa4", "aaa5", "aaa6", "aaa7", "aaa8"]

/-! ### Helper lemmas -/

theorem pyRound_bounds {lo hi : ℤ} {q : ℚ} (h0 : (lo : ℚ) ≤ q) (h1 : q ≤ (hi : ℚ)) :
    lo ≤ pyRound q ∧ pyRound q ≤ hi := by
  have hfl : lo ≤ Int.floor q := Int.le_floor.mpr h0
  have hfq : (Int.floor q : ℚ) ≤ q := Int.floor_le q
  have hfhi : Int.floor q ≤ hi := by
    have h : (Int.floor q : ℚ) ≤ (hi : ℚ) := hfq.trans h1
    exact_mod_cast h
  simp only [pyRound]
  split_ifs with hc1 hc2 hc3
  · exact ⟨hfl, hfhi⟩
  · refine ⟨by omega, ?_⟩
    have hq : (Int.floor q : ℚ) + 1/2 < q := by linarith
    have hlt : (Int.floor q : ℚ) < (hi : ℚ) := by linarith
    have hzlt : Int.floor q < hi := by exact_mod_cast hlt
    omega
  · exact ⟨hfl, hfhi⟩
  · refine ⟨by omega, ?_⟩
    have hge : (1 : ℚ)/2 ≤ q - (Int.floor q : ℚ) := not_lt.mp hc1
    have hlt : (Int.floor q : ℚ) < (hi : ℚ) := by linarith
    have hzlt : Int.floor q < hi := by exact_mod_cast hlt
    omega

theorem pyRound_eq_low (n : ℤ) (q : ℚ) (h1 : (n : ℚ) ≤ q) (h2 : q < (n : ℚ) + 1/2) :
    pyRound q = n := by
  have hf : Int.floor q = n := Int.floor_eq_iff.mpr ⟨h1, by linarith⟩
  simp only [pyRound, hf]
  rw [if_pos (by linarith : q - ((n : ℤ) : ℚ) < 1/2)]

theorem pyRound_eq_high (n : ℤ) (q : ℚ) (h1 : (n : ℚ) - 1/2 < q) (h2 : q ≤ (n : ℚ)) :
    pyRound q = n := by
  rcases eq_or_lt_of_le h2 with heq | hlt
  · exact pyRound_eq_low n q (le_of_eq heq.symm) (by linarith)
  · have hf : Int.floor q = n - 1 :=
      Int.floor_eq_iff.mpr ⟨by push_cast; linarith, by push_cast; linarith⟩
    simp only [pyRound, hf]
    rw [if_neg (by push_cast; linarith : ¬ (q - ((n - 1 : ℤ) : ℚ) < 1/2)),
      if_pos (by push_cast; linarith : (1 : ℚ)/2 < q - ((n - 1 : ℤ) : ℚ))]
    omega

theorem skill_bonus_nonneg (skill : String) : 0 ≤ skill_bonus skill := by
  simp only [skill_bonus]
  split_ifs <;> norm_num

theorem skills_score_bounds (resume_skills job_requirements : List String) :
    0 ≤ (calculate_skills_match resume_skills job_requirements).score ∧
      (calculate_skills_match resume_skills job_requirements).score ≤ 100 := by
  simp only [calculate_skills_match]
  split_ifs with h
  · exact ⟨le_refl 0, by norm_num⟩
  · constructor
    · refine le_min (by norm_num) ?_
      simp only [apply_skill_weights]
      split_ifs with hm
      · positivity
      · refine le_min (by norm_num) ?_
        have hb : (0 : ℚ) ≤
            ((List.filter (fun requirement => skillMatchesReq
                (List.map (fun skill => pyStrip (pyLower skill)) resume_skills)
                (pyStrip (pyLower requirement))) job_requirements).length : ℚ) /
              (job_requirements.length : ℚ) * 100 := by positivity
        have hs : (0 : ℚ) ≤ ((List.filter (fun requirement => skillMatchesReq
            (List.map (fun skill => pyStrip (pyLower skill)) resume_skills)
            (pyStrip (pyLower requirement))) job_requirements).map skill_bonus).sum := by
          refine List.sum_nonneg ?_
          intro x hx
          simp only [List.mem_map] at hx
          obtain ⟨s, _, rfl⟩ := hx
          exact skill_bonus_nonneg s
        linarith
    · exact min_le_left _ _

theorem level_alignment_bounds (resume_level required_level : String) :
    0 ≤ calculate_level_alignment resume_level required_level ∧
      calculate_level_alignment resume_level required_level ≤ 100 := by
  simp only [calculate_level_alignment]
  split_ifs <;> norm_num

theorem domain_match_bounds (resume_experience : List ExperienceEntry) (job : Job) :
    0 ≤ calculate_domain_match resume_experience job ∧
      calculate_domain_match resume_experience job ≤ 100 := by
  simp only [calculate_domain_match]
  split_ifs <;> norm_num

theorem exp_score_bounds (resume_experience : List ExperienceEntry) (job : Job)
    (hd : ∀ exp ∈ resume_experience, 0 ≤ exp.duration) :
    0 ≤ (calculate_experience_match resume_experience job).score ∧
      (calculate_experience_match resume_experience job).score ≤ 100 := by
  have htot : (0 : ℚ) ≤ (resume_experience.map fun exp => exp.duration).sum := by
    refine List.sum_nonneg ?_
    intro x hx
    simp only [List.mem_map] at hx
    obtain ⟨e, he, rfl⟩ := hx
    exact hd e he
  have hl := level_alignment_bounds
    (determine_experience_level (resume_experience.map fun exp => exp.duration).sum)
    (extract_required_level (pyLower job.title) (pyLower job.description))
  have hdm := domain_match_bounds resume_experience job
  simp only [calculate_experience_match]
  split_ifs with h hc1 hc2 hc3
  · exact ⟨le_refl 0, by norm_num⟩
  · exact pyRound_bounds (by push_cast; nlinarith [hl.1, hl.2, hdm.1, hdm.2])
      (by push_cast; nlinarith [hl.1, hl.2, hdm.1, hdm.2])
  · exact pyRound_bounds (by push_cast; nlinarith [hl.1, hl.2, hdm.1, hdm.2])
      (by push_cast; nlinarith [hl.1, hl.2, hdm.1, hdm.2])
  · exact pyRound_bounds (by push_cast; nlinarith [hl.1, hl.2, hdm.1, hdm.2])
      (by push_cast; nlinarith [hl.1, hl.2, hdm.1, hdm.2])
  · set T : ℚ := (resume_experience.map fun exp => exp.duration).sum with hT
    set R : ℕ :=
      extract_required_experience (pyLower job.title) (pyLower job.description) with hR
    have hRpos : (0 : ℚ) < (R : ℚ) := by
      rcases Nat.eq_zero_or_pos R with hz | hp
      · exfalso
        rw [hz] at hc1
        push_cast at hc1
        exact hc1 htot
      · exact_mod_cast hp
    have hdivlt : T / (R : ℚ) < 0.6 := by
      rw [div_lt_iff₀ hRpos]
      push_neg at hc3
      linarith
    have hylo : (20 : ℚ) ≤ max 20 (T / (R : ℚ) * 60) := le_max_left _ _
    have hyhi : max 20 (T / (R : ℚ) * 60) ≤ 100 := max_le (by norm_num) (by nlinarith)
    exact pyRound_bounds (by push_cast; nlinarith [hl.1, hl.2, hdm.1, hdm.2])
      (by push_cast; nlinarith [hl.1, hl.2, hdm.1, hdm.2])

theorem degree_score_nonneg (degree : String) (default : ℚ) (h : 0 ≤ default) :
    0 ≤ degree_score_of degree default := by
  simp only [degree_score_of]
  split_ifs <;> first | exact h | norm_num

theorem degree_score_pos (degree : String) (default : ℚ) (h : 0 < default) :
    0 < degree_score_of degree default := by
  simp only [degree_score_of]
  split_ifs <;> first | exact h | norm_num

theorem edu_score_bounds (resume_education : List EducationEntry) (job : Job) :
    0 ≤ (calculate_education_match resume_education job).score ∧
      (calculate_education_match resume_education job).score ≤ 100 := by
  simp only [calculate_education_match]
  split_ifs with h1 h2 h3
  · exact ⟨by norm_num, by norm_num⟩
  · exact ⟨by norm_num, by norm_num⟩
  · exact pyRound_bounds (by push_cast; norm_num) (by push_cast; norm_num)
  · have hrs : 0 ≤ degree_score_of (get_highest_degree resume_education) 50 :=
      degree_score_nonneg _ _ (by norm_num)
    have hqs : 0 < degree_score_of
        (extract_required_degree (pyLower job.description) job.requirements) 70 :=
      degree_score_pos _ _ (by norm_num)
    have hlt : degree_score_of (get_highest_degree resume_education) 50 <
        degree_score_of (extract_required_degree (pyLower job.description) job.requirements)
          70 := by
      push_neg at h3
      exact h3
    have hdiv : degree_score_of (get_highest_degree resume_education) 50 /
        degree_score_of (extract_required_degree (pyLower job.description) job.requirements)
          70 < 1 := (div_lt_one hqs).mpr hlt
    refine pyRound_bounds ?_ ?_
    · push_cast
      exact le_trans (by norm_num) (le_max_left _ _)
    · push_cast
      exact max_le (by norm_num) (by nlinarith)

theorem sem_score_bounds (tfidf : String → String → ℚ) (resume : Resume) (job : Job)
    (hb : ∀ a b, 0 ≤ tfidf a b ∧ tfidf a b ≤ 1) :
    0 ≤ (calculate_semantic_match tfidf resume job).score ∧
      (calculate_semantic_match tfidf resume job).score ≤ 100 := by
  simp only [calculate_semantic_match]
  split_ifs with h
  · exact ⟨by norm_num, by norm_num⟩
  · obtain ⟨hl, hr⟩ := hb (prepare_resume_text resume) (prepare_job_text job)
    exact pyRound_bounds (by push_cast; nlinarith) (by push_cast; nlinarith)

/-- Every requirement is classified into exactly one bucket by
`_calculate_skills_match`: lower-cased, `matching ∪ missing` equals the
requirement list and the two are disjoint. -/
theorem skills_partition (resume_skills job_requirements : List String) :
    (((calculate_skills_match resume_skills job_requirements).matching_skills.map
          pyLower).toFinset ∪
        ((calculate_skills_match resume_skills job_requirements).missing_skills.map
          pyLower).toFinset
      = (job_requirements.map pyLower).toFinset) ∧
    Disjoint
      (((calculate_skills_match resume_skills job_requirements).matching_skills.map
        pyLower).toFinset)
      (((calculate_skills_match resume_skills job_requirements).missing_skills.map
        pyLower).toFinset) := by
  simp only [calculate_skills_match]
  split_ifs with h
  · exact ⟨by simp, by simp⟩
  · constructor
    · have hperm : List.Perm
          ((job_requirements.filter fun requirement => skillMatchesReq
              (resume_skills.map fun skill => pyStrip (pyLower skill))
              (pyStrip (pyLower requirement))) ++
            (job_requirements.filter fun requirement => !(skillMatchesReq
              (resume_skills.map fun skill => pyStrip (pyLower skill))
              (pyStrip (pyLower requirement)))))
          job_requirements := List.filter_append_perm _ _
      calc ((job_requirements.filter fun requirement => skillMatchesReq
              (resume_skills.map fun skill => pyStrip (pyLower skill))
              (pyStrip (pyLower requirement))).map pyLower).toFinset ∪
            ((job_requirements.filter fun requirement => !(skillMatchesReq
              (resume_skills.map fun skill => pyStrip (pyLower skill))
              (pyStrip (pyLower requirement)))).map pyLower).toFinset
          = (((job_requirements.filter fun requirement => skillMatchesReq
              (resume_skills.map fun skill => pyStrip (pyLower skill))
              (pyStrip (pyLower requirement))) ++
              (job_requirements.filter fun requirement => !(skillMatchesReq
              (resume_skills.map fun skill => pyStrip (pyLower skill))
              (pyStrip (pyLower requirement))))).map pyLower).toFinset := by
            rw [List.map_append, List.toFinset_append]
        _ = (job_requirements.map pyLower).toFinset :=
            List.toFinset_eq_of_perm _ _ (hperm.map pyLower)
    · rw [Finset.disjoint_left]
      intro a ha hb
      simp only [List.mem_toFinset, List.mem_map, List.mem_filter] at ha hb
      obtain ⟨r1, ⟨hm1, hp1⟩, he1⟩ := ha
      obtain ⟨r2, ⟨hm2, hp2⟩, he2⟩ := hb
      have heq : pyLower r1 = pyLower r2 := he1.trans he2.symm
      rw [heq] at hp1
      rw [hp1] at hp2
      simp at hp2

/-- C3: for every resume skill list and job posting, the case-insensitive
deduplicated union of the returned matching and missing skills equals the
case-insensitive deduplicated union of `job.requirements` and `job.skills`
(which `calculate_match` concatenates at line 51), and the two sets are
disjoint: every required item lands in exactly one bucket. -/
theorem C3_partition (tfidf : String → String → ℚ) (resume : Resume) (job : Job) :
    (((calculate_match tfidf resume job).matching_skills.map pyLower).toFinset ∪
        ((calculate_match tfidf resume job).missing_skills.map pyLower).toFinset
      = (((job.requirements ++ job.skills).map pyLower)).toFinset) ∧
    Disjoint (((calculate_match tfidf resume job).matching_skills.map pyLower).toFinset)
      (((calculate_match tfidf resume job).missing_skills.map pyLower).toFinset) :=
  skills_partition resume.skills (job.requirements ++ job.skills)

/-- C2 counterexample: the skills matcher fails while experience, education and
semantic succeed with concrete results.  The source has no skills-matcher
boundary handler — the exception reaches the single top-level except
(lines 82-92) — so the whole result is the global fallback whose breakdown is
the empty dict: the other three matchers' real results are NOT kept,
refuting the claim. -/
theorem C2_counterexample :
    calculate_match_outcomes (.error ())
        (.ok { score := 94, total_years := some 4, required_years := some 2,
               level_match := some true,
               gap_analysis := "Experience requirements fully met" })
        (.ok { score := 100, highest_degree := none, required_degree := none,
               analysis := "No specific education requirements" })
        (.ok { score := 0, similarity := 0,
               analysis := some "Semantic similarity: 0.00" })
      = fallback_match_result ∧
    fallback_match_result.breakdown = none :=
  ⟨rfl, rfl⟩

/-- C2 amended: only the semantic matcher has a matcher-boundary handler — its
failure is replaced by `semantic_fallback` and the other three results are
kept — while a failure of the skills, experience or education matcher
triggers the whole-result fallback, discarding the others' outputs. -/
theorem C2_amended :
    (∀ (ex : Except Unit ExpComp) (ed : Except Unit EduComp) (sem : Except Unit SemComp),
        calculate_match_outcomes (.error ()) ex ed sem = fallback_match_result) ∧
    (∀ (s : SkillsComp) (ed : Except Unit EduComp) (sem : Except Unit SemComp),
        calculate_match_outcomes (.ok s) (.error ()) ed sem = fallback_match_result) ∧
    (∀ (s : SkillsComp) (e : ExpComp) (sem : Except Unit SemComp),
        calculate_match_outcomes (.ok s) (.ok e) (.error ()) sem = fallback_match_result) ∧
    (∀ (s : SkillsComp) (e : ExpComp) (d : EduComp),
        calculate_match_outcomes (.ok s) (.ok e) (.ok d) (.error ())
          = assemble_match_result s e d semantic_fallback) :=
  ⟨fun _ _ _ => rfl, fun _ _ _ => rfl, fun _ _ _ => rfl, fun _ _ _ => rfl⟩

/-- C5 counterexample: after one call on non-empty texts, the shared
vectorizer holds a fitted vocabulary (`fitted_vocab ≠ none`), which persists
into the next call — refuting "the semantic-similarity step retains no
vocabulary or other fitted state from one call to the next".  (The retained
state is overwritten before use, so results are unaffected; see
`C5_amended`.) -/
theorem C5_counterexample :
    (calculate_match_stateful (fun _ _ => 0) (fun a b => [a, b])
        { fitted_vocab := none }
        { skills := ["alpha"], experience := [], education := [], summary := "" }
        { title := "beta", company := "", description := "", requirements := [],
          skills := [] }).1
      ≠ { fitted_vocab := none } := by
  decide

/-- C5 amended: `calculate_match` is deterministic and its result is
independent of the vectorizer state left behind by earlier calls (the
vectorizer is refit from scratch on exactly the current two documents), so
two invocations with identical inputs return identical results in any call
order; however the shared vectorizer instance does retain the last call's
fitted vocabulary between calls. -/
theorem C5_amended (tfidf : String → String → ℚ)
    (fit_vocab : String → String → List String) (st1 st2 : VectorizerState)
    (resume : Resume) (job : Job) :
    (calculate_match_stateful tfidf fit_vocab st1 resume job).2
      = (calculate_match_stateful tfidf fit_vocab st2 resume job).2 :=
  rfl

/-- C6: whenever an uncaught error occurs in the pipeline — an exception
escaping the skills, experience or education matcher (semantic catches its
own) — `calculate_match` returns the whole-result fallback: score 50,
recommendation "maybe", empty breakdown, empty skill lists, empty
experience gap and empty recommendations; no exception propagates (the
model is a total function). -/
theorem C6_fallback (sk : Except Unit SkillsComp) (ex : Except Unit ExpComp)
    (ed : Except Unit EduComp) (sem : Except Unit SemComp)
    (h : sk = .error () ∨ ex = .error () ∨ ed = .error ()) :
    calculate_match_outcomes sk ex ed sem = fallback_match_result ∧
    fallback_match_result.score = 50 ∧
    fallback_match_result.recommendation = "maybe" ∧
    fallback_match_result.breakdown = none ∧
    fallback_match_result.matching_skills = [] ∧
    fallback_match_result.missing_skills = [] ∧
    fallback_match_result.experience_gap = "" ∧
    fallback_match_result.recommendations = [] := by
  refine ⟨?_, rfl, rfl, rfl, rfl, rfl, rfl, rfl⟩
  rcases h with h | h | h
  · rw [h]
    rfl
  · rw [h]
    cases sk with
    | error u => rfl
    | ok s => rfl
  · rw [h]
    cases sk with
    | error u => rfl
    | ok s =>
      cases ex with
      | error u => rfl
      | ok e => rfl

/-- C6 witness: a concrete education-matcher failure yields the fallback. -/
theorem C6_fallback_witness :
    calculate_match_outcomes
        (.ok { score := 79, matching_skills := [], missing_skills := [],
               match_ratio_val := some 1 })
        (.ok { score := 94, total_years := some 4, required_years := some 2,
               level_match := some true, gap_analysis := "" })
        (.error ())
        (.ok { score := 50, similarity := 1/2, analysis := none })
      = fallback_match_result ∧
    fallback_match_result.score = 50 ∧
    fallback_match_result.recommendation = "maybe" ∧
    fallback_match_result.breakdown = none ∧
    fallback_match_result.matching_skills = [] ∧
    fallback_match_result.missing_skills = [] ∧
    fallback_match_result.experience_gap = "" ∧
    fallback_match_result.recommendations = [] :=
  C6_fallback _ _ _ _ (Or.inr (Or.inr rfl))

/-- C8 counterexample: on empty resume skills the early return of
`_calculate_skills_match` (line 97) contains no `match_ratio` key (modelled
`none`), refuting "returns a ScoreComponent containing all four fields". -/
theorem C8_counterexample :
    (calculate_skills_match [] ["python"]).match_ratio_val = none :=
  rfl

/-- C8 amended: when `resumeSkills` or `requiredSkills` is empty, the skills
matcher returns score 0 with all requirements reported missing (empty when
there are none), but the returned dict omits the `matchRatio` field; the
four-field form is produced only on the non-empty path. -/
theorem C8_empty_case (resume_skills job_requirements : List String)
    (h : resume_skills = [] ∨ job_requirements = []) :
    calculate_skills_match resume_skills job_requirements
      = { score := 0, matching_skills := [], missing_skills := job_requirements,
          match_ratio_val := none } := by
  rcases h with h | h <;>
    simp [calculate_skills_match, h]

/-- C8 witness: both inputs empty. -/
theorem C8_empty_case_witness :
    calculate_skills_match [] []
      = { score := 0, matching_skills := [], missing_skills := [],
          match_ratio_val := none } :=
  C8_empty_case [] [] (Or.inl rfl)

/-- C4: the composite score is `round(skills*0.4 + experience*0.3 +
semantic*0.2 + education*0.1)` (lines 57-62, 68), and it lies in [0, 100]
whenever each component score does (a convex combination; no explicit clamp
exists or is needed in the source). -/
theorem C4_composite (sk : SkillsComp) (ex : ExpComp) (ed : EduComp) (sem : SemComp)
    (h1 : 0 ≤ sk.score ∧ sk.score ≤ 100) (h2 : 0 ≤ ex.score ∧ ex.score ≤ 100)
    (h3 : 0 ≤ ed.score ∧ ed.score ≤ 100) (h4 : 0 ≤ sem.score ∧ sem.score ≤ 100) :
    (assemble_match_result sk ex ed sem).score
      = pyRound (sk.score * 0.4 + (ex.score : ℚ) * 0.3 + (sem.score : ℚ) * 0.2 +
          (ed.score : ℚ) * 0.1) ∧
    0 ≤ (assemble_match_result sk ex ed sem).score ∧
    (assemble_match_result sk ex ed sem).score ≤ 100 := by
  have hc2a : (0 : ℚ) ≤ (ex.score : ℚ) := by exact_mod_cast h2.1
  have hc2b : (ex.score : ℚ) ≤ 100 := by exact_mod_cast h2.2
  have hc3a : (0 : ℚ) ≤ (ed.score : ℚ) := by exact_mod_cast h3.1
  have hc3b : (ed.score : ℚ) ≤ 100 := by exact_mod_cast h3.2
  have hc4a : (0 : ℚ) ≤ (sem.score : ℚ) := by exact_mod_cast h4.1
  have hc4b : (sem.score : ℚ) ≤ 100 := by exact_mod_cast h4.2
  refine ⟨rfl, ?_⟩
  have hlo : ((0 : ℤ) : ℚ) ≤ final_score_of sk ex ed sem := by
    simp only [final_score_of]
    push_cast
    linarith [h1.1, h1.2]
  have hhi : final_score_of sk ex ed sem ≤ ((100 : ℤ) : ℚ) := by
    simp only [final_score_of]
    push_cast
    linarith [h1.1, h1.2]
  exact pyRound_bounds hlo hhi

/-- C4 witness at component scores 80/90/70/60. -/
theorem C4_composite_witness :
    (assemble_match_result
        { score := 80, matching_skills := [], missing_skills := [],
          match_ratio_val := none }
        { score := 90, total_years := none, required_years := none,
          level_match := none, gap_analysis := "" }
        { score := 70, highest_degree := none, required_degree := none, analysis := "" }
        { score := 60, similarity := 3/5, analysis := none }).score
      = pyRound ((80 : ℚ) * 0.4 + ((90 : ℤ) : ℚ) * 0.3 + ((60 : ℤ) : ℚ) * 0.2 +
          ((70 : ℤ) : ℚ) * 0.1) ∧
    0 ≤ (assemble_match_result
        { score := 80, matching_skills := [], missing_skills := [],
          match_ratio_val := none }
        { score := 90, total_years := none, required_years := none,
          level_match := none, gap_analysis := "" }
        { score := 70, highest_degree := none, required_degree := none, analysis := "" }
        { score := 60, similarity := 3/5, analysis := none }).score ∧
    (assemble_match_result
        { score := 80, matching_skills := [], missing_skills := [],
          match_ratio_val := none }
        { score := 90, total_years := none, required_years := none,
          level_match := none, gap_analysis := "" }
        { score := 70, highest_degree := none, required_degree := none, analysis := "" }
        { score := 60, similarity := 3/5, analysis := none }).score ≤ 100 :=
  C4_composite _ _ _ _ (by norm_num) (by norm_num) (by norm_num) (by norm_num)

/-- Capping `_apply_skill_weights` at 100 equals capping the base score plus the
per-occurrence bonus sum at 100 (the empty-matching branch adds a zero sum). -/
theorem apply_weights_min (matching_skills : List String) (base_score : ℚ) :
    min 100 (apply_skill_weights matching_skills base_score)
      = min 100 (base_score + (matching_skills.map skill_bonus).sum) := by
  simp only [apply_skill_weights]
  split_ifs with hm
  · rw [List.isEmpty_iff.mp hm]
    simp
  · rw [← min_assoc, min_self]

unseal Rat.mul Rat.inv Rat.ofScientific Rat.add Rat.sub in
/-- C7 counterexample: with resume skill `python` and ten requirements of
which the two duplicate `"python"` entries match, the code adds the +5
programming-language bonus once per occurrence — score `min(100, 20+5+5) = 30`
— while the claim's "exactly one bonus per distinct matched skill" formula
gives `min(100, 20+5) = 25`. -/
theorem C7_counterexample :
    (calculate_skills_match ["python"] reqsB).score = 30 ∧
    claimed_skills_score (calculate_skills_match ["python"] reqsB).matching_skills
        (((calculate_skills_match ["python"] reqsB).matching_skills.length : ℚ) /
          ((reqsB.length : ℚ)) * 100) = 25 := by
  constructor
  · decide
  · decide

/-- C7 amended: for non-empty inputs the skills score equals the base score
`100 * matchingCount / requiredCount` plus, for each ELEMENT of the matching
list (i.e. per matched requirement occurrence, duplicates counted again),
exactly one bonus — +5 programming language, else +3 framework, else +4
cloud, else 0 — capped at 100, and the final score lies in [0, 100]. -/
theorem C7_weighted_formula (resume_skills job_requirements : List String)
    (h1 : resume_skills ≠ []) (h2 : job_requirements ≠ []) :
    (calculate_skills_match resume_skills job_requirements).score
      = min 100
          (((calculate_skills_match resume_skills
                job_requirements).matching_skills.length : ℚ) /
              (job_requirements.length : ℚ) * 100 +
            ((calculate_skills_match resume_skills job_requirements).matching_skills.map
              skill_bonus).sum) ∧
    0 ≤ (calculate_skills_match resume_skills job_requirements).score ∧
    (calculate_skills_match resume_skills job_requirements).score ≤ 100 := by
  refine ⟨?_, (skills_score_bounds _ _).1, (skills_score_bounds _ _).2⟩
  simp only [calculate_skills_match]
  rw [if_neg (by simp [List.isEmpty_iff, h1, h2])]
  exact apply_weights_min _ _

/-- C7 witness: one resume skill matching the single requirement. -/
theorem C7_weighted_formula_witness :
    (calculate_skills_match ["python"] ["python"]).score
      = min 100
          (((calculate_skills_match ["python"] ["python"]).matching_skills.length : ℚ) /
              ((["python"] : List String).length : ℚ) * 100 +
            ((calculate_skills_match ["python"] ["python"]).matching_skills.map
              skill_bonus).sum) ∧
    0 ≤ (calculate_skills_match ["python"] ["python"]).score ∧
    (calculate_skills_match ["python"] ["python"]).score ≤ 100 :=
  C7_weighted_formula ["python"] ["python"] (by decide) (by decide)

/-- C9: a job whose description and requirements contain none of the degree
keywords scores 100 for any non-empty education list; an empty education
list scores 50 with analysis "No education data available". -/
theorem C9_education_default (resume_education : List EducationEntry) (job : Job)
    (hkw : ∀ kw ∈ education_keywords,
      containsSub (pyLower job.description) kw = false ∧
      ∀ req ∈ job.requirements, containsSub (pyLower req) kw = false) :
    (resume_education ≠ [] →
      calculate_education_match resume_education job
        = { score := 100, highest_degree := none, required_degree := none,
            analysis := "No specific education requirements" }) ∧
    calculate_education_match [] job
      = { score := 50, highest_degree := none, required_degree := none,
          analysis := "No education data available" } := by
  constructor
  · intro hne
    have hrd : requires_degree (pyLower job.description) job.requirements = false := by
      simp only [requires_degree]
      rw [List.any_eq_false]
      intro kw hkwmem
      obtain ⟨hd, hreq⟩ := hkw kw hkwmem
      have h2 : (job.requirements.any fun req => containsSub (pyLower req) kw)
          = false := by
        rw [List.any_eq_false]
        intro req hrm
        simp [hreq req hrm]
      simp [hd, h2]
    simp only [calculate_education_match]
    rw [if_neg (by simp [List.isEmpty_iff, hne]), if_pos (by simp [hrd])]
  · rfl

/-- C9 witness: education list with one entry against a job mentioning no
degree keyword. -/
theorem C9_education_default_witness :
    (([{ degree := "BSc", field := "CS", institution := "MIT" }] :
        List EducationEntry) ≠ [] →
      calculate_education_match
          [{ degree := "BSc", field := "CS", institution := "MIT" }]
          { title := "dev", company := "acme", description := "writing code",
            requirements := [], skills := [] }
        = { score := 100, highest_degree := none, required_degree := none,
            analysis := "No specific education requirements" }) ∧
    calculate_education_match []
        { title := "dev", company := "acme", description := "writing code",
          requirements := [], skills := [] }
      = { score := 50, highest_degree := none, required_degree := none,
          analysis := "No education data available" } :=
  C9_education_default _ _ (by decide)

/-- C10: a non-empty education list in which no entry's degree contains any
of the substrings phd/doctorate/master/bachelor/associate/high_school is
treated as highest degree "bachelor" (the default of `_get_highest_degree`),
so such a candidate scores 100 against a job whose inferred required degree
is bachelor. -/
theorem C10_default_degree (resume_education : List EducationEntry) (job : Job)
    (hne : resume_education ≠ [])
    (hdeg : ∀ edu ∈ resume_education, ∀ m ∈ degree_markers,
        containsSub (pyLower edu.degree) m = false)
    (hreq : extract_required_degree (pyLower job.description) job.requirements
        = "bachelor") :
    get_highest_degree resume_education = "bachelor" ∧
    (calculate_education_match resume_education job).score = 100 := by
  have hh : get_highest_degree resume_education = "bachelor" := by
    simp only [get_highest_degree]
    have hfind : (["phd", "master", "bachelor", "associate",
          "high_school"].find? fun degree_level =>
        resume_education.any fun edu =>
          containsSub (pyLower edu.degree) degree_level ||
          (degree_level == "phd" && containsSub (pyLower edu.degree) "doctorate"))
        = none := by
      rw [List.find?_eq_none]
      intro lvl hlvl
      have hlm : lvl ∈ degree_markers := by
        simp only [degree_markers, List.mem_cons, List.not_mem_nil, or_false] at hlvl ⊢
        tauto
      simp only [Bool.not_eq_true]
      rw [List.any_eq_false]
      intro edu hmem
      have ha := hdeg edu hmem lvl hlm
      have hb := hdeg edu hmem "doctorate" (by simp [degree_markers])
      simp [ha, hb]
    rw [hfind]
  refine ⟨hh, ?_⟩
  simp only [calculate_education_match]
  rw [if_neg (by simp [List.isEmpty_iff, hne])]
  split_ifs with hrd hge
  · rfl
  · exact pyRound_eq_low 100 100 (by norm_num) (by norm_num)
  · exfalso
    rw [hh, hreq] at hge
    simp [degree_score_of] at hge

/-- C10 witness: a degree string ("BEng") containing none of the markers,
against a job whose text infers required degree bachelor. -/
theorem C10_default_degree_witness :
    get_highest_degree [{ degree := "BEng", field := "EE", institution := "x" }]
      = "bachelor" ∧
    (calculate_education_match
        [{ degree := "BEng", field := "EE", institution := "x" }]
        { title := "", company := "", description := "bachelor needed",
          requirements := [], skills := [] }).score = 100 :=
  C10_default_degree _ _ (by decide) (by decide) (by decide)

unseal Rat.mul Rat.inv Rat.ofScientific Rat.add Rat.sub in
/-- C1 counterexample: on `resumeA` vs `jobA` the component scores are
skills 79, experience 94, education 100 and semantic 0 (the two texts share
no token, so the TF-IDF cosine is exactly 0, and `fun _ _ => 0` is that
cosine; it lies in [0,1]).  The exact composite is
`79*0.4 + 94*0.3 + 0*0.2 + 100*0.1 = 69.8`: the stored score is
`round(69.8) = 70`, whose band is "recommended", but `_get_recommendation`
receives the un-rounded 69.8 (line 65) and returns "maybe" — the
recommendation does not equal the band containing `result.score`. -/
theorem C1_counterexample :
    (calculate_match (fun _ _ => 0) resumeA jobA).score = 70 ∧
    (calculate_match (fun _ _ => 0) resumeA jobA).recommendation = "maybe" ∧
    get_recommendation (((calculate_match (fun _ _ => 0) resumeA jobA).score : ℚ))
      = "recommended" ∧
    (calculate_match (fun _ _ => 0) resumeA jobA).recommendation
      ≠ get_recommendation (((calculate_match (fun _ _ => 0) resumeA jobA).score : ℚ)) := by
  exact ⟨by decide, by decide, by decide, by decide⟩

/-- C1 amended: for every valid input (cosine in [0,1], durations ≥ 0) the
returned score is the rounded exact composite and lies in [0, 100], and the
recommendation equals the band — with inclusive lower bounds 85/70/50 —
containing the UN-rounded composite; when rounding crosses a band boundary
this differs from the band of `result.score` (see `C1_counterexample`). -/
theorem C1_score_bounds_band (tfidf : String → String → ℚ)
    (hb : ∀ a b, 0 ≤ tfidf a b ∧ tfidf a b ≤ 1) (resume : Resume) (job : Job)
    (hdur : ∀ exp ∈ resume.experience, 0 ≤ exp.duration) :
    (calculate_match tfidf resume job).score
      = pyRound (composite_score tfidf resume job) ∧
    0 ≤ (calculate_match tfidf resume job).score ∧
    (calculate_match tfidf resume job).score ≤ 100 ∧
    (calculate_match tfidf resume job).recommendation
      = get_recommendation (composite_score tfidf resume job) := by
  have hsk := skills_score_bounds resume.skills (job.requirements ++ job.skills)
  have hex := exp_score_bounds resume.experience job hdur
  have hed := edu_score_bounds resume.education job
  have hsem := sem_score_bounds tfidf resume job hb
  have hexa : (0 : ℚ) ≤ ((calculate_experience_match resume.experience job).score : ℚ) := by
    exact_mod_cast hex.1
  have hexb : ((calculate_experience_match resume.experience job).score : ℚ) ≤ 100 := by
    exact_mod_cast hex.2
  have heda : (0 : ℚ) ≤ ((calculate_education_match resume.education job).score : ℚ) := by
    exact_mod_cast hed.1
  have hedb : ((calculate_education_match resume.education job).score : ℚ) ≤ 100 := by
    exact_mod_cast hed.2
  have hsema : (0 : ℚ) ≤ ((calculate_semantic_match tfidf resume job).score : ℚ) := by
    exact_mod_cast hsem.1
  have hsemb : ((calculate_semantic_match tfidf resume job).score : ℚ) ≤ 100 := by
    exact_mod_cast hsem.2
  have hlo : ((0 : ℤ) : ℚ) ≤ composite_score tfidf resume job := by
    simp only [composite_score, final_score_of]
    push_cast
    linarith [hsk.1, hsk.2]
  have hhi : composite_score tfidf resume job ≤ ((100 : ℤ) : ℚ) := by
    simp only [composite_score, final_score_of]
    push_cast
    linarith [hsk.1, hsk.2]
  have hbd := pyRound_bounds hlo hhi
  exact ⟨rfl, hbd.1, hbd.2, rfl⟩

/-- C1 witness: the all-empty resume and job. -/
theorem C1_score_bounds_band_witness :
    (calculate_match (fun _ _ => 0)
        { skills := [], experience := [], education := [], summary := "" }
        { title := "", company := "", description := "", requirements := [],
          skills := [] }).score
      = pyRound (composite_score (fun _ _ => 0)
          { skills := [], experience := [], education := [], summary := "" }
          { title := "", company := "", description := "", requirements := [],
            skills := [] }) ∧
    0 ≤ (calculate_match (fun _ _ => 0)
        { skills := [], experience := [], education := [], summary := "" }
        { title := "", company := "", description := "", requirements := [],
          skills := [] }).score ∧
    (calculate_match (fun _ _ => 0)
        { skills := [], experience := [], education := [], summary := "" }
        { title := "", company := "", description := "", requirements := [],
          skills := [] }).score ≤ 100 ∧
    (calculate_match (fun _ _ => 0)
        { skills := [], experience := [], education := [], summary := "" }
        { title := "", company := "", description := "", requirements := [],
          skills := [] }).recommendation
      = get_recommendation (composite_score (fun _ _ => 0)
          { skills := [], experience := [], education := [], summary := "" }
          { title := "", company := "", description := "", requirements := [],
            skills := [] }) :=
  C1_score_bounds_band _ (fun a b => ⟨by norm_num, by norm_num⟩) _ _
    (by intro e he; simp at he)

end Hiralyze
